import Mathlib

/-!
Shallow embedding of `src/client/identity_unlock.rs` from the sqrl
repository: the `IdentityUnlock` storage block, which protects a 32-byte
identity unlock key (IUK) under a rescue code via scrypt key stretching
and AES-256-GCM, plus its fixed-layout binary serialization.

Byte buffers are modelled as `List Nat` (each entry one byte).  External
collaborators that are not part of `src/` (the scrypt configuration type,
the rescue-code codec, the key-stretching function, and the AES-GCM
primitive) are modelled from the spec: the deterministic fixed-width
encoders are given concrete definitions, while the cryptographic
functions are fields of a `CryptoEnv` parameter, with the ideal-AEAD
correctness and authenticity laws as propositional fields.  Randomness
(rescue-code generation, fresh scrypt salts) is modelled by threading an
explicit seed.
-/

namespace Sqrl

/-- The repository's opaque error type (`crate::error::SqrlError`): a single
error carrying a human-readable message. -/
structure SqrlError where
  message : String
  deriving DecidableEq

/-- The authentication-failure error raised by `decrypt_identity_unlock_key`
when the AES-GCM tag does not verify; the message string is the one in the
source (`identity_unlock.rs` line 78). -/
def authFailureError : SqrlError := ⟨"Decryption failed. Check your password!"⟩

/-- Modelled from the spec: the StructuralParseError raised when a decoder
finds insufficient remaining bytes.  The raising code (`ReadableVector::
next_sub_array` and `ScryptConfig::from_binary`) is repository code outside
`src/`; the spec's error taxonomy (§7) gives one structural-parse error
class, distinct from the authentication failure. -/
def structuralParseError : SqrlError := ⟨"Invalid binary data"⟩

deriving instance DecidableEq for Except

/-- The bytes of a string, as in Rust's `str::as_bytes` applied to the
ASCII rescue-code text. -/
def strBytes (s : String) : List Nat := s.data.map Char.toNat

/-- Little-endian 16-bit encoding, as written by
`result.write_u16::<LittleEndian>(..)` (byteorder crate). -/
def u16le (v : Nat) : List Nat := [v % 256, v / 256 % 256]

/-- Modelled from the spec: `ScryptConfig` (repository code outside `src/`)
is an opaque cost-parameter container with a fixed-width binary encoding.
Per spec §3 the block's 73-byte body is `len(serialized scrypt_config) +
32 + 16`, so the serialized form is 25 bytes; we carry the raw serialized
bytes. -/
structure ScryptConfig where
  bytes : List Nat
  deriving DecidableEq

/-- Modelled from the spec: `ScryptConfig::to_binary` appends the opaque
fixed-width serialization to the output buffer. -/
def ScryptConfig.to_binary (self : ScryptConfig) (output : List Nat) : List Nat :=
  output ++ self.bytes

/-- Modelled from the spec: `ScryptConfig::from_binary` consumes the fixed
25-byte serialized form from the front of the stream, failing with a
structural parse error when fewer bytes remain. -/
def ScryptConfig.from_binary (binary : List Nat) :
    Except SqrlError (ScryptConfig × List Nat) :=
  if 25 ≤ binary.length then
    Except.ok (⟨binary.take 25⟩, binary.drop 25)
  else
    Except.error structuralParseError

/-- The container's block-type registry (`super::DataType`); only the
variant this block uses is modelled. -/
inductive DataType where
  | RescueCode
  deriving DecidableEq

/-- Modelled from the spec: `DataType::to_binary` appends the block's fixed
type enumerant (the SQRL storage format's rescue-code block type, 2) as a
little-endian 16-bit value. -/
def DataType.to_binary (self : DataType) (output : List Nat) : List Nat :=
  match self with
  | .RescueCode => output ++ u16le 2

/-- The `IdentityUnlock` block (`identity_unlock.rs` lines 15-20):
`identity_unlock_key` holds the 32-byte AES-GCM ciphertext of the IUK
(all-zero means uninitialized), `verification_data` the 16-byte tag. -/
structure IdentityUnlock where
  scrypt_config : ScryptConfig
  identity_unlock_key : List Nat
  verification_data : List Nat
  deriving DecidableEq

namespace IdentityUnlock

/-- `WritableDataBlock::get_type` for this block: the fixed rescue-code
enumerant (`identity_unlock.rs` lines 93-95). -/
def get_type (_ : IdentityUnlock) : DataType := DataType.RescueCode

/-- `WritableDataBlock::len` for this block: the declared on-wire length,
the constant 73 (`identity_unlock.rs` lines 97-99). -/
def len (_ : IdentityUnlock) : Nat := 73

/-- `IdentityUnlock::aad` (`identity_unlock.rs` lines 83-89): build the
AEAD associated data by writing, in order, the declared length as a
little-endian u16, the type tag, and the serialized scrypt parameters.
The `Result` wrapper in the source is dead: all three writes go to a
growable `Vec` and cannot fail, so the model is total. -/
def aad (self : IdentityUnlock) : List Nat :=
  let result : List Nat := []
  let result := result ++ u16le self.len
  let result := self.get_type.to_binary result
  let result := self.scrypt_config.to_binary result
  result

end IdentityUnlock

/-- The nonce literal passed to `AesGcm::new` on the seal path
(`identity_unlock.rs` line 50): `&[0; 256]`, 256 zero bytes. -/
def seal_nonce : List Nat := List.replicate 256 0

/-- The nonce literal passed to `AesGcm::new` on the recovery path
(`identity_unlock.rs` line 69): `&[0; 32]`, 32 zero bytes. -/
def open_nonce : List Nat := List.replicate 32 0

/-- Modelled from the spec: the cryptographic collaborators outside `src/`
(§6) — the rescue-code codec (`generate_rescue_code`, `decode_rescue_code`),
the key-stretching function (`mut_en_scrypt`, which may refresh the scrypt
configuration as a side effect), fresh scrypt-configuration generation
(`ScryptConfig::new`), and the AES-GCM AEAD primitive of the `crypto`
crate.  `gcmEncrypt key nonce aad plaintext` returns (ciphertext, tag);
`gcmDecrypt key nonce aad ciphertext tag` returns the plaintext when the
tag verifies.  The two laws are the ideal-AEAD ones the spec relies on
(§4.2): decryption inverts encryption under identical parameters, and a
verifying tag certifies that the ciphertext/tag pair was produced by
encryption under exactly those parameters. -/
structure CryptoEnv where
  generateRescueCode : Nat → String
  decodeRescueCode : String → List Nat
  mutEnScrypt : List Nat → ScryptConfig → Nat → List Nat × ScryptConfig
  scryptConfigNew : Nat → ScryptConfig
  gcmEncrypt : List Nat → List Nat → List Nat → List Nat → List Nat × List Nat
  gcmDecrypt : List Nat → List Nat → List Nat → List Nat → List Nat → Option (List Nat)
  gcm_correct : ∀ k n a p,
    gcmDecrypt k n a (gcmEncrypt k n a p).1 (gcmEncrypt k n a p).2 = some p
  gcm_auth : ∀ k n a c t p,
    gcmDecrypt k n a c t = some p → gcmEncrypt k n a p = (c, t)

/-- An AEAD model is nonce-separating when encryptions under different
nonces never collide on the full (ciphertext, tag) pair.  For real AES-GCM
this holds except with negligible probability (the tag is a PRF of the
nonce-derived counter block); it is the idealization under which the
wrong-parameter rejection properties below are stated. -/
def NonceSeparating (env : CryptoEnv) : Prop :=
  ∀ k₁ n₁ a₁ p₁ k₂ n₂ a₂ p₂,
    env.gcmEncrypt k₁ n₁ a₁ p₁ = env.gcmEncrypt k₂ n₂ a₂ p₂ → n₁ = n₂

namespace IdentityUnlock

/-- `IdentityUnlock::decrypt_identity_unlock_key` (`identity_unlock.rs`
lines 63-81): decode the rescue code to raw key bytes (note: no scrypt
stretching on this path), run AES-GCM decryption with the 32-byte zero
nonce and the block header as associated data, and fail with the
authentication-failure error when the tag does not verify.  The source
takes `&self`; the returned second component is the (unchanged) receiver,
threading state exactly as the borrow does. -/
def decrypt_identity_unlock_key (env : CryptoEnv) (self : IdentityUnlock)
    (rescue_code : String) : Except SqrlError (List Nat) × IdentityUnlock :=
  let key := env.decodeRescueCode rescue_code
  match env.gcmDecrypt key open_nonce self.aad
      self.identity_unlock_key self.verification_data with
  | some unencrypted_data => (Except.ok unencrypted_data, self)
  | none => (Except.error authFailureError, self)

/-- `IdentityUnlock::update_unlock_key` (`identity_unlock.rs` lines 36-61):
if the stored ciphertext differs from the all-zero sentinel, first recover
the previous IUK with the supplied rescue code (propagating its error);
then generate a fresh rescue code (`rc_seed` models the randomness),
stretch it with `mut_en_scrypt` at effort multiplier 7 (refreshing the
scrypt configuration), seal the new IUK with the 256-byte zero nonce and
the updated header as associated data, store ciphertext and tag, and
return the new rescue code together with the previous IUK.  The source's
other `?` sites (`aad`) are infallible `Vec` writes, so the sole error
path is the recovery step. -/
def update_unlock_key (env : CryptoEnv) (self : IdentityUnlock)
    (rescue_code : String) (identity_unlock_key : List Nat) (rc_seed : Nat) :
    Except SqrlError (String × List Nat) × IdentityUnlock :=
  let previous_identity_key : List Nat := List.replicate 32 0
  let step1 : Except SqrlError (List Nat) :=
    if self.identity_unlock_key ≠ previous_identity_key then
      (self.decrypt_identity_unlock_key env rescue_code).1
    else
      Except.ok previous_identity_key
  match step1 with
  | Except.error e => (Except.error e, self)
  | Except.ok previous_identity_key =>
    let rescue_code := env.generateRescueCode rc_seed
    let ks := env.mutEnScrypt (strBytes rescue_code) self.scrypt_config 7
    let self1 : IdentityUnlock := { self with scrypt_config := ks.2 }
    let ct := env.gcmEncrypt ks.1 seal_nonce self1.aad identity_unlock_key
    let self2 : IdentityUnlock :=
      { self1 with identity_unlock_key := ct.1, verification_data := ct.2 }
    (Except.ok (rescue_code, previous_identity_key), self2)

/-- `IdentityUnlock::new` (`identity_unlock.rs` lines 23-34): build the
all-zero block with a freshly generated scrypt configuration (`cfg_seed`
models its randomness) and immediately rotate it once with the empty
rescue code to protect the caller's IUK.  The source calls `.unwrap()` on
that rotation; `none` models the panic. -/
def new (env : CryptoEnv) (identity_unlock_key : List Nat)
    (cfg_seed rc_seed : Nat) : Option (IdentityUnlock × String) :=
  let identity_unlock : IdentityUnlock :=
    { scrypt_config := env.scryptConfigNew cfg_seed
      identity_unlock_key := List.replicate 32 0
      verification_data := List.replicate 16 0 }
  match identity_unlock.update_unlock_key env "" identity_unlock_key rc_seed with
  | (Except.ok (rescue_code, _), b) => some (b, rescue_code)
  | (Except.error _, _) => none

end IdentityUnlock

/-- Modelled from the spec: `ReadableVector::next_sub_array n` (repository
code outside `src/`) consumes exactly `n` bytes from the front of the
stream, failing with a structural parse error when fewer remain. -/
def next_sub_array (binary : List Nat) (n : Nat) :
    Except SqrlError (List Nat × List Nat) :=
  if n ≤ binary.length then
    Except.ok (binary.take n, binary.drop n)
  else
    Except.error structuralParseError

namespace IdentityUnlock

/-- `WritableDataBlock::from_binary` for `IdentityUnlock`
(`identity_unlock.rs` lines 101-107): read, in order, the scrypt
parameters, exactly 32 ciphertext bytes, and exactly 16 tag bytes,
propagating any structural error; the remaining stream is returned
(modelling the consumed `VecDeque`). -/
def from_binary (binary : List Nat) :
    Except SqrlError (IdentityUnlock × List Nat) :=
  match ScryptConfig.from_binary binary with
  | Except.error e => Except.error e
  | Except.ok (scrypt_config, binary) =>
    match next_sub_array binary 32 with
    | Except.error e => Except.error e
    | Except.ok (identity_unlock_key, binary) =>
      match next_sub_array binary 16 with
      | Except.error e => Except.error e
      | Except.ok (verification_data, binary) =>
        Except.ok (⟨scrypt_config, identity_unlock_key, verification_data⟩, binary)

/-- `WritableDataBlock::to_binary_inner` for `IdentityUnlock`
(`identity_unlock.rs` lines 109-114): append the serialized scrypt
parameters, the 32-byte ciphertext, and the 16-byte tag to the output
buffer, with no length or type prefix.  The `Result` wrapper in the
source is dead: all writes go to a growable `Vec` and cannot fail. -/
def to_binary_inner (self : IdentityUnlock) (output : List Nat) : List Nat :=
  let output := self.scrypt_config.to_binary output
  let output := output ++ self.identity_unlock_key
  let output := output ++ self.verification_data
  output

end IdentityUnlock

/-! ### A concrete collaborator instance

`toyEnv` instantiates `CryptoEnv` with simple computable functions so the
theorems below can be evaluated on concrete inputs: "encryption" keeps the
plaintext as the ciphertext and emits an injective encoding of
(key, nonce, associated data) as the tag, which satisfies the ideal-AEAD
laws exactly. -/

/-- Length-prefixed flattening of a (key, nonce, aad) triple; injective,
used as the tag of the concrete AEAD instance. -/
def encTriple (k n a : List Nat) : List Nat :=
  k.length :: (k ++ n.length :: (n ++ a.length :: a))

/-- A concrete, fully computable instance of the collaborator model. -/
def toyEnv : CryptoEnv where
  generateRescueCode rc_seed := String.mk (List.replicate (rc_seed + 1) 'R')
  decodeRescueCode s := strBytes s
  mutEnScrypt secret cfg mult := (mult :: secret, cfg)
  scryptConfigNew seed := ⟨List.replicate 25 seed⟩
  gcmEncrypt k n a p := (p, encTriple k n a)
  gcmDecrypt k n a c t := if t = encTriple k n a then some c else none
  gcm_correct := by
    intro k n a p
    simp
  gcm_auth := by
    intro k n a c t p h
    change (if t = encTriple k n a then some c else none) = some p at h
    change (p, encTriple k n a) = (c, t)
    by_cases ht : t = encTriple k n a
    · rw [if_pos ht] at h
      injection h with hcp
      subst hcp
      rw [ht]
    · rw [if_neg ht] at h
      exact Option.noConfusion h

/-! ### Concrete inputs used to evaluate the theorems -/

/-- An uninitialized block with a concrete scrypt configuration. -/
def freshBlockW : IdentityUnlock :=
  ⟨⟨List.replicate 25 2⟩, List.replicate 32 0, List.replicate 16 0⟩

/-- The block produced by rotating `freshBlockW` once under `toyEnv`. -/
def rotatedBlockW : IdentityUnlock :=
  (freshBlockW.update_unlock_key toyEnv "" (List.replicate 32 3) 1).2

/-- The (block, rescue code) pair produced by `new` under `toyEnv` for the
all-ones IUK. -/
def newResultW : IdentityUnlock × String :=
  (IdentityUnlock.new toyEnv (List.replicate 32 1) 0 0).getD (⟨⟨[]⟩, [], []⟩, "")

/-- A protected block whose stored tag matches no encryption of `toyEnv`. -/
def junkBlockW : IdentityUnlock :=
  ⟨⟨List.replicate 25 5⟩, List.replicate 32 6, List.replicate 16 7⟩

/-- A well-formed block with concrete field contents, for the
serialization round trip. -/
def roundTripBlockW : IdentityUnlock :=
  ⟨⟨List.replicate 25 9⟩, List.replicate 32 10, List.replicate 16 11⟩

/-- An uninitialized block used to evaluate the skip-recovery branch. -/
def uninitBlockW : IdentityUnlock :=
  ⟨⟨List.replicate 25 4⟩, List.replicate 32 0, List.replicate 16 0⟩

/-! ### Helper lemmas -/

lemma encTriple_inj {k₁ n₁ a₁ k₂ n₂ a₂ : List Nat}
    (h : encTriple k₁ n₁ a₁ = encTriple k₂ n₂ a₂) : n₁ = n₂ := by
  simp only [encTriple, List.cons.injEq] at h
  obtain ⟨hk, h₂⟩ := h
  obtain ⟨-, h₃⟩ := List.append_inj h₂ hk
  simp only [List.cons.injEq] at h₃
  obtain ⟨hn, h₄⟩ := h₃
  exact (List.append_inj h₄ hn).1

lemma toyEnv_nonceSeparating : NonceSeparating toyEnv := by
  intro k₁ n₁ a₁ p₁ k₂ n₂ a₂ p₂ h
  have h₂ : encTriple k₁ n₁ a₁ = encTriple k₂ n₂ a₂ := congrArg Prod.snd h
  exact encTriple_inj h₂

/-- On an uninitialized block (all-zero stored ciphertext) the rotation
takes the skip-recovery branch and succeeds, returning the freshly
generated rescue code and the all-zero previous key. -/
lemma update_uninit_fst (env : CryptoEnv) (b : IdentityUnlock) (rc : String)
    (iuk : List Nat) (seed : Nat) (h : b.identity_unlock_key = List.replicate 32 0) :
    (b.update_unlock_key env rc iuk seed).1 =
      Except.ok (env.generateRescueCode seed, List.replicate 32 0) := by
  have hc : ¬(b.identity_unlock_key ≠ List.replicate 32 0) := by simp [h]
  simp only [IdentityUnlock.update_unlock_key, if_neg hc]

/-- When the block is protected and recovery fails, the rotation returns
that same error with the receiver unchanged. -/
lemma update_err_of_decrypt_err (env : CryptoEnv) (b : IdentityUnlock)
    (r : String) (iuk : List Nat) (seed : Nat) (e : SqrlError)
    (hprot : b.identity_unlock_key ≠ List.replicate 32 0)
    (hd : (b.decrypt_identity_unlock_key env r).1 = Except.error e) :
    b.update_unlock_key env r iuk seed = (Except.error e, b) := by
  simp only [IdentityUnlock.update_unlock_key, if_pos hprot, hd]

/-- A successful rotation stores a ciphertext/tag pair produced by one
AES-GCM encryption of the new key under the 256-byte zero seal nonce. -/
lemma update_ok_sealed (env : CryptoEnv) (b : IdentityUnlock)
    (rc : String) (iuk : List Nat) (seed : Nat) (rc' : String) (prev : List Nat)
    (b' : IdentityUnlock)
    (h : b.update_unlock_key env rc iuk seed = (Except.ok (rc', prev), b')) :
    ∃ key a,
      b'.identity_unlock_key = (env.gcmEncrypt key seal_nonce a iuk).1 ∧
      b'.verification_data = (env.gcmEncrypt key seal_nonce a iuk).2 := by
  simp only [IdentityUnlock.update_unlock_key] at h
  split at h
  · exact absurd (congrArg Prod.fst h) (by simp)
  · rw [Prod.mk.injEq] at h
    obtain ⟨-, h₂⟩ := h
    refine ⟨(env.mutEnScrypt (strBytes (env.generateRescueCode seed)) b.scrypt_config 7).1,
      IdentityUnlock.aad
        { b with scrypt_config :=
            (env.mutEnScrypt (strBytes (env.generateRescueCode seed)) b.scrypt_config 7).2 },
      ?_, ?_⟩
    · rw [← h₂]
    · rw [← h₂]

/-- Decryption of any block whose stored pair came from a seal-nonce
encryption fails for every rescue code: a verifying tag would certify an
encryption under the 32-byte zero recovery nonce, and a nonce-separating
AEAD cannot produce the same pair under both nonces. -/
lemma decrypt_fails_of_sealed (env : CryptoEnv) (hsep : NonceSeparating env)
    (b : IdentityUnlock) (r : String) (key a iuk : List Nat)
    (h1 : b.identity_unlock_key = (env.gcmEncrypt key seal_nonce a iuk).1)
    (h2 : b.verification_data = (env.gcmEncrypt key seal_nonce a iuk).2) :
    (b.decrypt_identity_unlock_key env r).1 = Except.error authFailureError := by
  rcases hd : env.gcmDecrypt (env.decodeRescueCode r) open_nonce b.aad
      b.identity_unlock_key b.verification_data with _ | p
  · simp only [IdentityUnlock.decrypt_identity_unlock_key, hd]
  · exfalso
    have hauth := env.gcm_auth _ _ _ _ _ _ hd
    have hpair : (b.identity_unlock_key, b.verification_data) =
        env.gcmEncrypt key seal_nonce a iuk := by
      rw [h1, h2]
    have hn := hsep _ _ _ _ _ _ _ _ (hauth.trans hpair)
    have hlen := congrArg List.length hn
    simp only [open_nonce, seal_nonce, List.length_replicate] at hlen
    exact absurd hlen (by decide)

/-! ### The claims -/

/-- Claim C3: whenever `update_unlock_key` returns an error, the block's
in-memory state (all three fields) is exactly what it was before the call:
the sole mutation point comes after the only fallible step (recovery), so
no error path produces a partially rotated block. -/
theorem update_error_preserves_state (env : CryptoEnv) (b : IdentityUnlock)
    (rc : String) (iuk : List Nat) (seed : Nat) (e : SqrlError)
    (b' : IdentityUnlock)
    (h : b.update_unlock_key env rc iuk seed = (Except.error e, b')) :
    b' = b := by
  simp only [IdentityUnlock.update_unlock_key] at h
  split at h
  · rw [Prod.mk.injEq] at h
    exact h.2.symm
  · rw [Prod.mk.injEq] at h
    exact Except.noConfusion h.1

/-- Witness for C3: a concrete failed rotation (wrong rescue code against a
protected block) leaves the concrete block unchanged. -/
theorem update_error_preserves_state_witness :
    junkBlockW.update_unlock_key toyEnv "Z" (List.replicate 32 1) 0 =
      (Except.error authFailureError, junkBlockW) ∧
    junkBlockW = junkBlockW :=
  ⟨by decide,
   update_error_preserves_state toyEnv junkBlockW "Z" (List.replicate 32 1) 0
     authFailureError junkBlockW (by decide)⟩

/-- Claim C6: the associated data built by `aad` is, in order, the 2-byte
little-endian encoding of the declared body length 73, the binary encoding
of the block's fixed rescue-code type tag, and the serialized scrypt
parameters, and nothing else. -/
theorem aad_layout (b : IdentityUnlock) :
    b.aad = u16le b.len ++ DataType.to_binary b.get_type [] ++ b.scrypt_config.bytes ∧
    u16le b.len = [73, 0] :=
  ⟨rfl, by simp [u16le, IdentityUnlock.len]⟩

/-- Claim C7: on a block whose stored ciphertext is the all-zero sentinel,
`update_unlock_key` skips recovery entirely — for every rescue-code
argument it succeeds and returns the all-zero 32-byte value as the
previous identity unlock key. -/
theorem update_uninitialized_skips_recovery (env : CryptoEnv)
    (b : IdentityUnlock) (rc : String) (iuk : List Nat) (seed : Nat)
    (h : b.identity_unlock_key = List.replicate 32 0) :
    (b.update_unlock_key env rc iuk seed).1 =
      Except.ok (env.generateRescueCode seed, List.replicate 32 0) :=
  update_uninit_fst env b rc iuk seed h

/-- Witness for C7: a concrete uninitialized block, rotated with a garbage
rescue code, succeeds and reports the all-zero previous key. -/
theorem update_uninitialized_skips_recovery_witness :
    uninitBlockW.identity_unlock_key = List.replicate 32 0 ∧
    (uninitBlockW.update_unlock_key toyEnv "garbage" (List.replicate 32 8) 3).1 =
      Except.ok (toyEnv.generateRescueCode 3, List.replicate 32 0) :=
  ⟨by decide,
   update_uninitialized_skips_recovery toyEnv uninitBlockW "garbage"
     (List.replicate 32 8) 3 (by decide)⟩

/-- Claim C9: `decrypt_identity_unlock_key` takes the block by shared
reference and never modifies it: the threaded block state is returned
unchanged whether decryption succeeds or fails. -/
theorem decrypt_preserves_block (env : CryptoEnv) (b : IdentityUnlock)
    (rc : String) :
    (b.decrypt_identity_unlock_key env rc).2 = b := by
  rcases hd : env.gcmDecrypt (env.decodeRescueCode rc) open_nonce b.aad
      b.identity_unlock_key b.verification_data with _ | p
  · simp only [IdentityUnlock.decrypt_identity_unlock_key, hd]
  · simp only [IdentityUnlock.decrypt_identity_unlock_key, hd]

/-- Claim C10: `new` is total — the internal `update_unlock_key("", iuk)`
call on the freshly constructed all-zero block always takes the
skip-recovery branch and succeeds, so the `unwrap` in the source never
panics and `new` always returns a block and a rescue code. -/
theorem new_never_fails (env : CryptoEnv) (iuk : List Nat)
    (cfg_seed rc_seed : Nat) :
    (IdentityUnlock.new env iuk cfg_seed rc_seed).isSome = true := by
  have hfst := update_uninit_fst env
    ⟨env.scryptConfigNew cfg_seed, List.replicate 32 0, List.replicate 16 0⟩
    "" iuk rc_seed rfl
  rcases hu : IdentityUnlock.update_unlock_key env
      ⟨env.scryptConfigNew cfg_seed, List.replicate 32 0, List.replicate 16 0⟩
      "" iuk rc_seed with ⟨res, b'⟩
  rw [hu] at hfst
  have hres : res = Except.ok (env.generateRescueCode rc_seed, List.replicate 32 0) :=
    hfst
  subst hres
  simp only [IdentityUnlock.new, hu]
  rfl

/-- Claim C4: `to_binary_inner` appends, in order, the serialized scrypt
parameters, the 32-byte ciphertext and the 16-byte tag — no length or type
prefix — for a total of exactly 73 appended bytes, matching `len`; and
`from_binary` on those bytes returns a block equal to the original in all
three fields. -/
theorem to_binary_roundtrip (b : IdentityUnlock) (output : List Nat)
    (h1 : b.scrypt_config.bytes.length = 25)
    (h2 : b.identity_unlock_key.length = 32)
    (h3 : b.verification_data.length = 16) :
    b.to_binary_inner output =
      output ++ b.scrypt_config.bytes ++ b.identity_unlock_key ++
        b.verification_data ∧
    (b.to_binary_inner []).length = b.len ∧
    IdentityUnlock.from_binary (b.to_binary_inner []) = Except.ok (b, []) := by
  have henc : b.to_binary_inner [] =
      b.scrypt_config.bytes ++ (b.identity_unlock_key ++ b.verification_data) := by
    simp [IdentityUnlock.to_binary_inner, ScryptConfig.to_binary,
      List.append_assoc]
  refine ⟨rfl, ?_, ?_⟩
  · rw [henc]
    simp [h1, h2, h3, IdentityUnlock.len]
  · rw [henc]
    have e1 : ScryptConfig.from_binary
        (b.scrypt_config.bytes ++ (b.identity_unlock_key ++ b.verification_data)) =
        Except.ok (b.scrypt_config, b.identity_unlock_key ++ b.verification_data) := by
      have hc : 25 ≤ (b.scrypt_config.bytes ++
          (b.identity_unlock_key ++ b.verification_data)).length := by
        rw [List.length_append, h1]
        omega
      unfold ScryptConfig.from_binary
      rw [if_pos hc, List.take_left' h1, List.drop_left' h1]
    have e2 : next_sub_array (b.identity_unlock_key ++ b.verification_data) 32 =
        Except.ok (b.identity_unlock_key, b.verification_data) := by
      have hc : 32 ≤ (b.identity_unlock_key ++ b.verification_data).length := by
        rw [List.length_append, h2]
        omega
      unfold next_sub_array
      rw [if_pos hc, List.take_left' h2, List.drop_left' h2]
    have e3 : next_sub_array b.verification_data 16 =
        Except.ok (b.verification_data, []) := by
      unfold next_sub_array
      rw [if_pos h3.ge, ← h3, List.take_length, List.drop_length]
    simp only [IdentityUnlock.from_binary, e1, e2, e3]

/-- Witness for C4: the round trip and the 73-byte body length hold for a
concrete well-formed block and a concrete nonempty output prefix. -/
theorem to_binary_roundtrip_witness :
    roundTripBlockW.scrypt_config.bytes.length = 25 ∧
    (roundTripBlockW.to_binary_inner [1, 2] =
       [1, 2] ++ roundTripBlockW.scrypt_config.bytes ++
         roundTripBlockW.identity_unlock_key ++ roundTripBlockW.verification_data ∧
     (roundTripBlockW.to_binary_inner []).length = roundTripBlockW.len ∧
     IdentityUnlock.from_binary (roundTripBlockW.to_binary_inner []) =
       Except.ok (roundTripBlockW, [])) :=
  ⟨by decide,
   to_binary_roundtrip roundTripBlockW [1, 2] (by decide) (by decide) (by decide)⟩

/-- Claim C5: any input holding fewer than 73 bytes (so fewer than the
32 + 16 bytes after the 25-byte scrypt-parameter field) makes
`from_binary` return the structural parse error — never a panic (the
model is a total function) and never a zero-filled success. -/
theorem from_binary_truncated (binary : List Nat) (h : binary.length < 73) :
    IdentityUnlock.from_binary binary = Except.error structuralParseError := by
  by_cases h1 : 25 ≤ binary.length
  · have e1 : ScryptConfig.from_binary binary =
        Except.ok (⟨binary.take 25⟩, binary.drop 25) := by
      unfold ScryptConfig.from_binary
      rw [if_pos h1]
    by_cases h2 : 32 ≤ (binary.drop 25).length
    · have e2 : next_sub_array (binary.drop 25) 32 =
          Except.ok ((binary.drop 25).take 32, (binary.drop 25).drop 32) := by
        unfold next_sub_array
        rw [if_pos h2]
      have h3 : ¬ 16 ≤ ((binary.drop 25).drop 32).length := by
        simp only [List.length_drop]
        omega
      have e3 : next_sub_array ((binary.drop 25).drop 32) 16 =
          Except.error structuralParseError := by
        unfold next_sub_array
        rw [if_neg h3]
      simp only [IdentityUnlock.from_binary, e1, e2, e3]
    · have e2 : next_sub_array (binary.drop 25) 32 =
          Except.error structuralParseError := by
        unfold next_sub_array
        rw [if_neg h2]
      simp only [IdentityUnlock.from_binary, e1, e2]
  · have e1 : ScryptConfig.from_binary binary =
        Except.error structuralParseError := by
      unfold ScryptConfig.from_binary
      rw [if_neg h1]
    simp only [IdentityUnlock.from_binary, e1]

/-- Witness for C5: a concrete 40-byte input (truncated inside the
ciphertext field) is rejected with the structural parse error. -/
theorem from_binary_truncated_witness :
    (List.replicate 40 9).length < 73 ∧
    IdentityUnlock.from_binary (List.replicate 40 9) =
      Except.error structuralParseError :=
  ⟨by decide, from_binary_truncated (List.replicate 40 9) (by decide)⟩

/-- Claim C1 (code bug): the spec requires that recovery with the rescue
code returned by the most recent rotation return exactly the IUK that the
rotation sealed.  The code cannot satisfy this: the seal path derives its
AES key by scrypt-stretching the rescue-code text under a 256-byte zero
nonce, while the recovery path uses the raw decoded rescue-code bytes as
the key under a 32-byte zero nonce.  For every nonce-separating AEAD
model, recovery with the rescue code returned by `new` fails with the
authentication error instead of returning the sealed IUK, and a
subsequent rotation offered that same code aborts with the same error. -/
theorem decrypt_after_new_fails (env : CryptoEnv) (hsep : NonceSeparating env)
    (iuk : List Nat) (cfg_seed rc_seed : Nat) (b : IdentityUnlock) (rc : String)
    (hnew : IdentityUnlock.new env iuk cfg_seed rc_seed = some (b, rc)) :
    (b.decrypt_identity_unlock_key env rc).1 = Except.error authFailureError ∧
    ∀ iuk' seed', b.identity_unlock_key ≠ List.replicate 32 0 →
      (b.update_unlock_key env rc iuk' seed').1 = Except.error authFailureError := by
  simp only [IdentityUnlock.new] at hnew
  split at hnew
  · rename_i rc₁ prev₁ b₁ heq
    have hinj := Option.some.inj hnew
    have hb : b₁ = b := congrArg Prod.fst hinj
    have hrc : rc₁ = rc := congrArg Prod.snd hinj
    subst hb
    subst hrc
    obtain ⟨key, a, hk1, hk2⟩ := update_ok_sealed env
      ⟨env.scryptConfigNew cfg_seed, List.replicate 32 0, List.replicate 16 0⟩
      "" iuk rc_seed rc₁ prev₁ b₁ heq
    have hdec := decrypt_fails_of_sealed env hsep b₁ rc₁ key a iuk hk1 hk2
    refine ⟨hdec, fun iuk' seed' hprot => ?_⟩
    rw [update_err_of_decrypt_err env b₁ rc₁ iuk' seed' authFailureError hprot hdec]
  · exact Option.noConfusion hnew

/-- Witness for C1: under the concrete collaborator instance, `new` with
the all-ones IUK succeeds, yet decrypting with the rescue code it just
returned fails with the authentication error. -/
theorem decrypt_after_new_fails_witness :
    IdentityUnlock.new toyEnv (List.replicate 32 1) 0 0 =
      some (newResultW.1, newResultW.2) ∧
    (newResultW.1.decrypt_identity_unlock_key toyEnv newResultW.2).1 =
      Except.error authFailureError :=
  ⟨by rfl,
   (decrypt_after_new_fails toyEnv toyEnv_nonceSeparating (List.replicate 32 1)
     0 0 newResultW.1 newResultW.2 (by rfl)).1⟩

/-- Claim C2: against a block just produced by a rotation and still
protected (non-zero stored ciphertext), decrypting with any rescue code
other than the one that rotation returned yields the wrong-credential
authentication error — not a success and not a structural error — and a
rotation offered such a code aborts with that same error, unchanged
state.  (In this code the conclusion holds for every rescue code, the
returned one included; see C1.) -/
theorem wrong_rescue_code_rejected (env : CryptoEnv) (hsep : NonceSeparating env)
    (b₀ : IdentityUnlock) (rc₀ r : String) (iuk iuk' : List Nat)
    (seed seed' : Nat) (rc₁ : String) (prev : List Nat) (b : IdentityUnlock)
    (hrot : b₀.update_unlock_key env rc₀ iuk seed = (Except.ok (rc₁, prev), b))
    (hprot : b.identity_unlock_key ≠ List.replicate 32 0)
    (hr : r ≠ rc₁) :
    (b.decrypt_identity_unlock_key env r).1 = Except.error authFailureError ∧
    b.update_unlock_key env r iuk' seed' = (Except.error authFailureError, b) := by
  obtain ⟨key, a, hk1, hk2⟩ := update_ok_sealed env b₀ rc₀ iuk seed rc₁ prev b hrot
  have hdec := decrypt_fails_of_sealed env hsep b r key a iuk hk1 hk2
  exact ⟨hdec, update_err_of_decrypt_err env b r iuk' seed' authFailureError hprot hdec⟩

set_option maxRecDepth 100000 in
/-- Witness for C2: a concrete rotation of an uninitialized block under
the concrete collaborator instance, then recovery and rotation attempts
with the wrong code "X", both rejected with the authentication error. -/
theorem wrong_rescue_code_rejected_witness :
    freshBlockW.update_unlock_key toyEnv "" (List.replicate 32 3) 1 =
      (Except.ok (toyEnv.generateRescueCode 1, List.replicate 32 0), rotatedBlockW) ∧
    rotatedBlockW.identity_unlock_key ≠ List.replicate 32 0 ∧
    "X" ≠ toyEnv.generateRescueCode 1 ∧
    ((rotatedBlockW.decrypt_identity_unlock_key toyEnv "X").1 =
       Except.error authFailureError ∧
     rotatedBlockW.update_unlock_key toyEnv "X" (List.replicate 32 4) 2 =
       (Except.error authFailureError, rotatedBlockW)) :=
  ⟨by rfl, by decide, by decide,
   wrong_rescue_code_rejected toyEnv toyEnv_nonceSeparating freshBlockW "" "X"
     (List.replicate 32 3) (List.replicate 32 4) 1 2 (toyEnv.generateRescueCode 1)
     (List.replicate 32 0) rotatedBlockW (by rfl) (by decide) (by decide)⟩

/-- Claim C8 counterexample: the claim asserts that the seal and recovery
sites supply the same nonce value; in the source they do not — the seal
site passes a 256-byte zero buffer and the recovery site a 32-byte one. -/
theorem seal_open_nonce_distinct : seal_nonce ≠ open_nonce := by decide

set_option maxRecDepth 100000 in
/-- Claim C8 as amended: every byte of the nonce buffer passed at each of
the two AES-GCM call sites is zero, but the two sites do not supply the
same value — the seal buffer has 256 bytes and the recovery buffer 32. -/
theorem nonce_buffers_all_zero :
    (∀ x ∈ seal_nonce, x = 0) ∧ (∀ x ∈ open_nonce, x = 0) ∧
    seal_nonce.length = 256 ∧ open_nonce.length = 32 ∧
    seal_nonce ≠ open_nonce := by decide

end Sqrl
